import Mathlib

/-!
Verification of the download orchestration and retrieval pipeline of
`sentinel_query_download.py`.

Python strings are modelled as `List Char` (`PyStr`); Python byte strings as
`List Nat` (`ByteSeq`).  The network (the `requests` library) and the zip
reader are modelled as an oracle structure `Env`; the local filesystem as
association lists.  Printed lines and side effects are recorded as event
traces, and Python exceptions as `Except PyFault`.
-/

set_option autoImplicit false

namespace SentinelQueryDownload

/-- PyStr models a Python `str` as its list of characters. -/
abbrev PyStr := List Char

/-- ByteSeq models a Python `bytes` value. -/
abbrev ByteSeq := List Nat

/-- pyS converts a Lean string literal into the `PyStr` model. -/
def pyS (s : String) : PyStr := s.toList

/-- pySlice models the Python slice `s[a:b]` for `0 ≤ a ≤ b` (clamping past
the end exactly as Python does). -/
def pySlice (s : PyStr) (a b : Nat) : PyStr := (s.drop a).take (b - a)

/-- pySplitP models Python `str.split` against a separator-class predicate:
the string is cut at every character satisfying `p`, keeping empty pieces.
`pySplitP p l` is never `[]`. -/
def pySplitP (p : Char → Bool) : PyStr → List PyStr
  | [] => [[]]
  | x :: xs =>
    match pySplitP p xs with
    | [] => [[]]
    | r :: rs => if p x then [] :: r :: rs else (x :: r) :: rs

/-- pySplitChar models Python `s.split(c)` for a one-character separator. -/
def pySplitChar (c : Char) (l : PyStr) : List PyStr := pySplitP (fun x => x = c) l

/-- pyIsSpace is the set of characters Python's no-argument `str.split`
treats as whitespace. -/
def pyIsSpace (c : Char) : Bool :=
  c = ' ' || c = '\t' || c = '\n' || c = '\r' || c = '\x0b' || c = '\x0c'

/-- pySplitWs models Python's no-argument `s.split()`: split on whitespace
and drop the empty pieces. -/
def pySplitWs (l : PyStr) : List PyStr := (pySplitP pyIsSpace l).filter (fun t => t ≠ [])

/-- startswith models Python `s.startswith(pre)`. -/
def startswith : PyStr → PyStr → Bool
  | [], _ => true
  | _ :: _, [] => false
  | p :: ps, s :: ss => p = s && startswith ps ss

/-- lastElem returns the last piece of a split, modelling the Python index
`[-1]` on a nonempty list (`pySplitP` never returns `[]`). -/
def lastElem (l : List PyStr) : PyStr := l.getLastD []

/-! ### Data model

CsvRow models one row of the ASF query result (the fields the download
pipeline reads); GranuleRow is the row after `__main__` adds the
`Download Site` and `asf_wget_str` entries (source lines 381-386). -/
structure CsvRow where
  granuleName : PyStr
  pathNumber : PyStr
  frameNumber : PyStr
  acquisitionDate : PyStr
  url : PyStr

structure GranuleRow extends CsvRow where
  downloadSite : PyStr
  asfWgetStr : PyStr

/-- aws_baseurl is the hard-coded AWS base URL of source line 34. -/
def aws_baseurl : PyStr :=
  pyS "http://sentinel1-slc-seasia-pds.s3-website-ap-southeast-1.amazonaws.com/datasets/slc/v1.1/"

/-- awsUrl builds the AWS open-dataset URL exactly as source lines 67-74:
year, month and day are the slices `[0:4]`, `[5:7]`, `[8:10]` of the
acquisition date, and the granule name appears twice. -/
def awsUrl (row : GranuleRow) : PyStr :=
  let row_date := row.acquisitionDate
  let row_year := pySlice row_date 0 4
  let row_month := pySlice row_date 5 7
  let row_day := pySlice row_date 8 10
  let datefolder := row_year ++ pyS "/" ++ row_month ++ pyS "/" ++ row_day ++ pyS "/"
  aws_baseurl ++ datefolder ++ row.granuleName ++ pyS "/" ++ row.granuleName ++ pyS ".zip"

/-- splitEqIndex1 models `option.split('=')[1]` as used on source lines 92
and 94; the index is always in range there because the option is guarded by
a `startswith` check for a token that contains `=`. -/
def splitEqIndex1 (option : PyStr) : PyStr := (pySplitChar '=' option).getD 1 []

/-- parseWgetCreds models the loop of source lines 89-94: split the
`asf_wget_str` on whitespace and scan every token, keeping the last
`--http-user=`/`--http-password=` match (`none` models the variable staying
unbound, which would raise `NameError` at the call on line 96). -/
def parseWgetCreds (s : PyStr) : Option PyStr × Option PyStr :=
  (pySplitWs s).foldl
    (fun acc option =>
      if startswith (pyS "--http-user=") option then
        (some (splitEqIndex1 option), acc.2)
      else if startswith (pyS "--http-password=") option then
        (acc.1, some (splitEqIndex1 option))
      else acc)
    (none, none)

/-! ### Effects model

Python exceptions that the pipeline can raise are `PyFault`s; an `.error`
outcome models an exception escaping (an unhandled fault).  The network and
the zip reader are an oracle `Env`; files in a worker's current directory
are a `FileMap`; the contents of the run's GUID scratch directory are an
`FsTree` (one level of nesting is all the pipeline inspects). -/
inductive PyFault where
  | valueErr
  | nameErr
  | fileNotFound
  | badZip
  | indexErr
  | moveCollision
  | rmdirFail
  deriving DecidableEq, Repr

/-- Node models one entry of an extracted archive (or of the scratch
directory): a plain file or a directory of named entries. -/
inductive Node where
  | file (content : ByteSeq)
  | dir (children : List (PyStr × Node))

instance : Inhabited Node := ⟨Node.file []⟩

/-- FsTree models the contents of a directory as named entries. -/
abbrev FsTree := List (PyStr × Node)

/-- Env is the oracle for the external world: `redirectTarget url` is the
`r1.url` produced by the unauthenticated `requests.get(url)` (source line
144); `authGet target user pass` is the status code and body of the
authenticated `s.get(r1.url, allow_redirects=True)` (line 145); `unzip`
interprets archive bytes as a directory tree (`none` models a file that is
not a valid zip); `uuid` is the random identifier of `uuid.uuid4()` (line
227). -/
structure Env where
  redirectTarget : PyStr → PyStr
  authGet : PyStr → PyStr → PyStr → Nat × ByteSeq
  unzip : ByteSeq → Option FsTree
  uuid : PyStr

/-- FileMap models the files of a worker's current working directory. -/
abbrev FileMap := List (PyStr × ByteSeq)

def lookupBytes : FileMap → PyStr → Option ByteSeq
  | [], _ => none
  | (k, v) :: rest, n => if k = n then some v else lookupBytes rest n

def writeFile : FileMap → PyStr → ByteSeq → FileMap
  | [], n, c => [(n, c)]
  | (k, v) :: rest, n, c => if k = n then (n, c) :: rest else (k, v) :: writeFile rest n c

def removeFile (m : FileMap) (n : PyStr) : FileMap := m.filter (fun e => e.1 ≠ n)

/-- fileNonEmpty models `os.path.isfile(filename) and
os.path.getsize(filename) > 0` (source line 155). -/
def fileNonEmpty (m : FileMap) (n : PyStr) : Bool :=
  match lookupBytes m n with
  | some b => decide (0 < b.length)
  | none => false

/-- Ev records one observable action of a worker: a printed line or a
filesystem/network side effect, in program order. -/
inductive Ev where
  | mkdirs (d : PyStr)
  | tryAws (url : PyStr)
  | awsFailedNoFallback
  | awsFailedFallback
  | asfCall (url user pass : PyStr)
  | wrote (name : PyStr) (size : Nat)
  | fileOk (name : PyStr)
  | fileBad (name : PyStr)
  | httpFail (status : Nat)
  | asfFailedMsg
  | zipOpen (name : PyStr)
  | extractAll
  | rmdirSub (name : PyStr)
  | removeZip (name : PyStr)
  deriving DecidableEq, Repr

/-- lastSeg models `url.split("/")[-1]` (source line 147). -/
def lastSeg (url : PyStr) : PyStr := lastElem (pySplitChar '/' url)

/-- downloadGranule_url models source lines 139-160: print the call banner;
issue an unauthenticated GET to `url` for the redirect target; issue the
authenticated GET to the resolved target; on status 200 write the body to a
file named by the last path segment of `url` and log whether the written
file is non-empty; on any other status print the failure with the status
code and write nothing.  Returns the updated working-directory files and
the event trace. -/
def downloadGranule_url (env : Env) (cwd : FileMap) (url username password : PyStr) :
    FileMap × List Ev :=
  let evs0 := [Ev.asfCall url username password]
  let r1url := env.redirectTarget url
  let r := env.authGet r1url username password
  let filename := lastSeg url
  if r.1 = 200 then
    let cwd1 := writeFile cwd filename r.2
    let evs1 := evs0 ++ [Ev.wrote filename r.2.length]
    if fileNonEmpty cwd1 filename then (cwd1, evs1 ++ [Ev.fileOk filename])
    else (cwd1, evs1 ++ [Ev.fileBad filename])
  else (cwd, evs0 ++ [Ev.httpFail r.1])

/-! ### GUID-directory tree operations (source lines 113-125) -/
def lookupNode : FsTree → PyStr → Option Node
  | [], _ => none
  | (k, v) :: rest, n => if k = n then some v else lookupNode rest n

def hasName (g : FsTree) (n : PyStr) : Bool := (lookupNode g n).isSome

def setNode : FsTree → PyStr → Node → FsTree
  | [], _, _ => []
  | (k, v) :: rest, n, nd => if k = n then (n, nd) :: rest else (k, v) :: setNode rest n nd

def removeName (g : FsTree) (n : PyStr) : FsTree := g.filter (fun e => e.1 ≠ n)

/-- isDirAt models `os.path.isdir(os.path.join(GUID_dir, name))`. -/
def isDirAt (g : FsTree) (n : PyStr) : Bool :=
  match lookupNode g n with
  | some (Node.dir _) => true
  | _ => false

/-- listdir models `os.listdir(GUID_dir)` as the entry names in order. -/
def listdir (g : FsTree) : List PyStr := g.map Prod.fst

/-- topDirs models the comprehension of source line 116: the names in
`listdir` that are directories. -/
def topDirs (g : FsTree) : List PyStr := (listdir g).filter (fun n => isDirAt g n)

/-- extractInto models `zip_ref.extractall(GUID_dir)` (line 114): the
archive's entries land in the target, overwriting same-named top-level
entries (every verified scenario extracts into an empty target, so deep
merging of same-named directories is not modelled). -/
def extractInto (g t : FsTree) : FsTree := g.filter (fun e => !(hasName t e.1)) ++ t

/-- moveAllUp models the loop of lines 120-121: each item of the nested
directory's snapshot listing is moved to the top of the GUID directory.  A
name collision at the destination is modelled as a fault (`shutil.move`
onto an existing path is platform-dependent; every verified scenario is
collision-free). -/
def moveAllUp : FsTree → List (PyStr × Node) → Except PyFault FsTree
  | top, [] => .ok top
  | top, (n, nd) :: rest =>
    if hasName top n then .error .moveCollision
    else moveAllUp (top ++ [(n, nd)]) rest

/-- flattenDir models lines 119-123: if `dir_path` exists and is a
directory, move every item of its snapshot listing up into the GUID
directory and `os.rmdir` the then-empty nested directory; otherwise do
nothing.  `os.rmdir` of a non-empty directory is a fault. -/
def flattenDir (g : FsTree) (d0 : PyStr) : Except PyFault (FsTree × List Ev) :=
  match lookupNode g d0 with
  | some (Node.dir cs) =>
    match moveAllUp (setNode g d0 (Node.dir [])) cs with
    | .error f => .error f
    | .ok g1 =>
      match lookupNode g1 d0 with
      | some (Node.dir []) => .ok (removeName g1 d0, [Ev.rmdirSub d0])
      | _ => .error .rmdirFail
  | _ => .ok (g, [])

/-- WorkerSt is one worker's view of the filesystem: its working-directory
files, the contents of the shared GUID scratch directory, and whether the
dataset root directory already exists (lines 50-54). -/
structure WorkerSt where
  cwd : FileMap
  guid : FsTree
  datasetDirExists : Bool

/-- extractPhase models lines 102-125: open the zip named after the granule
(`FileNotFoundError` if absent, `BadZipFile` if not an archive), extract it
into the GUID directory, index the extracted directory listing
(`IndexError` when no top-level directory exists, line 117), flatten the
first one, and remove the archive file. -/
def extractPhase (env : Env) (st : WorkerSt) (zip_file : PyStr) :
    List Ev × Except PyFault WorkerSt :=
  match lookupBytes st.cwd zip_file with
  | none => ([Ev.zipOpen zip_file], .error .fileNotFound)
  | some bytes =>
    match env.unzip bytes with
    | none => ([Ev.zipOpen zip_file], .error .badZip)
    | some tree =>
      let guid1 := extractInto st.guid tree
      match topDirs guid1 with
      | [] => ([Ev.zipOpen zip_file, Ev.extractAll], .error .indexErr)
      | d0 :: _ =>
        match flattenDir guid1 d0 with
        | .error f => ([Ev.zipOpen zip_file, Ev.extractAll], .error f)
        | .ok (guid2, fevs) =>
          ([Ev.zipOpen zip_file, Ev.extractAll] ++ fevs ++ [Ev.removeZip zip_file],
           .ok { st with cwd := removeFile st.cwd zip_file, guid := guid2 })

/-- asfBody models lines 85-125 (the authenticated branch): parse the
credentials from `asf_wget_str` (an unmatched token set leaves the Python
variables unbound: `NameError` at the call of line 96), run
`downloadGranule_url`, then — since the function-level `status` is consulted
— print the failure line when `status != 0` and run the extraction phase
when `status == 0`. -/
def asfBody (env : Env) (row : GranuleRow) (st0 : WorkerSt) (status : Int) :
    List Ev × Except PyFault WorkerSt :=
  match parseWgetCreds row.asfWgetStr with
  | (some asf_user, some asf_pass) =>
    let res := downloadGranule_url env st0.cwd row.url asf_user asf_pass
    let evA := res.2 ++ (if status ≠ 0 then [Ev.asfFailedMsg] else [])
    if status = 0 then
      let ext := extractPhase env { st0 with cwd := res.1 } (row.granuleName ++ pyS ".zip")
      (evA ++ ext.1, ext.2)
    else (evA, .ok { st0 with cwd := res.1 })
  | _ => ([], .error .nameErr)

/-- downloadGranule models source lines 39-127.  The dataset root directory
is created when missing (lines 50-54).  `status` is initialised to 0 (line
63); in the AWS/both branch the actual transfer command of line 78 is
commented out in the source and `status` is re-assigned the literal 0 (line
76), so the open-dataset attempt consists of building the URL and always
reports success.  The authenticated branch runs when `(status != 0 and
site == "both") or site == "ASF"` (line 84). -/
def downloadGranule (env : Env) (row : GranuleRow) (dataset : PyStr) (st : WorkerSt) :
    List Ev × Except PyFault WorkerSt :=
  let evs0 := if st.datasetDirExists then [] else [Ev.mkdirs dataset]
  let st0 : WorkerSt := { st with datasetDirExists := true }
  let status : Int := 0
  let awsEvs :=
    if row.downloadSite = pyS "AWS" ∨ row.downloadSite = pyS "both" then
      let aws_url := awsUrl row
      if status ≠ 0 then
        if row.downloadSite = pyS "AWS" then [Ev.tryAws aws_url, Ev.awsFailedNoFallback]
        else [Ev.tryAws aws_url, Ev.awsFailedFallback]
      else [Ev.tryAws aws_url]
    else []
  if (status ≠ 0 ∧ row.downloadSite = pyS "both") ∨ row.downloadSite = pyS "ASF" then
    let res := asfBody env row st0 status
    (evs0 ++ awsEvs ++ res.1, res.2)
  else
    (evs0 ++ awsEvs, .ok st0)

/-- asfPhaseEv classifies the events that the authenticated branch can
emit; in particular neither `tryAws` nor the AWS failure prints. -/
def asfPhaseEv : Ev → Bool
  | .asfCall _ _ _ => true
  | .wrote _ _ => true
  | .fileOk _ => true
  | .fileBad _ => true
  | .httpFail _ => true
  | .asfFailedMsg => true
  | .zipOpen _ => true
  | .extractAll => true
  | .rmdirSub _ => true
  | .removeZip _ => true
  | _ => false

/-! ### Concrete fixtures for witnesses and counterexamples -/
def wstr0 : PyStr := pyS "--http-user=u --http-password=p"

def rowASF : GranuleRow :=
  { granuleName := pyS "G1", pathNumber := pyS "1", frameNumber := pyS "2",
    acquisitionDate := pyS "2020-01-02T00:00:00", url := pyS "https://h/G1.zip",
    downloadSite := pyS "ASF", asfWgetStr := wstr0 }

def rowBoth : GranuleRow := { rowASF with downloadSite := pyS "both" }

def rowAWS : GranuleRow := { rowASF with downloadSite := pyS "AWS" }

/-- env403 is an oracle whose authenticated GET always answers 403. -/
def env403 : Env := ⟨fun u => u, fun _ _ _ => (403, []), fun _ => none, pyS "uid"⟩

def stEmpty : WorkerSt := ⟨[], [], true⟩

/-- envC4 answers every authenticated GET with 200 and presents the
archive as one directory `D` holding files `a` and `b`. -/
def envC4 : Env :=
  ⟨fun u => u, fun _ _ _ => (200, [9]),
   fun _ => some [(pyS "D", Node.dir [(pyS "a", Node.file [1]), (pyS "b", Node.file [2])])],
   pyS "uid"⟩

/-- envC5zero presents an archive with no top-level directory at all. -/
def envC5zero : Env :=
  ⟨fun u => u, fun _ _ _ => (200, [9]), fun _ => some [(pyS "f", Node.file [3])], pyS "uid"⟩

/-- envC5two presents an archive with two top-level directories. -/
def envC5two : Env :=
  ⟨fun u => u, fun _ _ _ => (200, [9]),
   fun _ => some [(pyS "D1", Node.dir [(pyS "x", Node.file [1])]),
                  (pyS "D2", Node.dir [(pyS "y", Node.file [2])])],
   pyS "uid"⟩

/-! ### Model of the `__main__` driver (source lines 176-404) -/
/-- MainCfg models the configuration values the driver reads: download
site and worker count (lines 222-223), output format (line 224), dataset
directory (line 226), and the `asf_download` section's http-user and
http-password, where `none` models a missing section or option (lines
365-374). -/
structure MainCfg where
  download_site : PyStr
  nproc : Nat
  output_format : PyStr
  dataset : PyStr
  http_user : Option PyStr
  http_password : Option PyStr
  startDate : PyStr
  endDate : PyStr

/-- MEv records one observable action of the driver, in program order:
the GUID path generation (line 227), the config rewrite (line 270), the
ASF query POST (line 319), the query-log write (line 330), a worker event
tagged with its job index, and the final prints (lines 395-398). -/
inductive MEv where
  | guidPath (dir : PyStr)
  | writeConfig
  | queryPost
  | saveLog
  | noDownloadMsg
  | job (i : Nat) (e : Ev)
  | downloadComplete
  | summary
  deriving DecidableEq, Repr

/-- credsOk models the check of lines 367-373: the `asf_download` section
exists, both options are present, and both values are non-empty. -/
def credsOk (cfg : MainCfg) : Bool :=
  match cfg.http_user, cfg.http_password with
  | some u2, some p2 => decide (0 < u2.length) && decide (0 < p2.length)
  | _, _ => false

/-- asfWgetStrOf models line 376, `" ".join("--%s=%s" ...)` over the
`asf_download` items (modelled with its two credential options). -/
def asfWgetStrOf (cfg : MainCfg) : PyStr :=
  match cfg.http_user, cfg.http_password with
  | some u2, some p2 => pyS "--http-user=" ++ u2 ++ pyS " " ++ pyS "--http-password=" ++ p2
  | _, _ => []

/-- mainWgetStr models lines 365-379: the wget option string is built from
the config when the site is not `AWS`, and is empty otherwise. -/
def mainWgetStr (cfg : MainCfg) : PyStr :=
  if ¬(cfg.download_site = pyS "AWS") then asfWgetStrOf cfg else []

/-- mkRow models lines 381-386: each csv row gets the `Download Site` and
`asf_wget_str` entries added. -/
def mkRow (r : CsvRow) (site wstr : PyStr) : GranuleRow :=
  { toCsvRow := r, downloadSite := site, asfWgetStr := wstr }

/-- mainDownloadList is the download list passed to the pool (line 392). -/
def mainDownloadList (cfg : MainCfg) (rows : List CsvRow) : List GranuleRow :=
  rows.map (fun r => mkRow r cfg.download_site (mainWgetStr cfg))

/-- jobResults models `pool.starmap(downloadGranule, ...)` (lines
390-393): one task per row (`chunksize=1`), every task runs to completion
independently; `sts i` is job `i`'s initial filesystem view. -/
def jobResults (env : Env) (dataset : PyStr) (rows2 : List GranuleRow) (sts : Nat → WorkerSt) :
    List (List Ev × Except PyFault WorkerSt) :=
  rows2.enum.map (fun pr => downloadGranule env pr.2 dataset (sts pr.1))

/-- firstErr models the error collection of `Pool.starmap`: after all
tasks finish, the first task exception in submission order is re-raised in
the parent; `none` means every task returned normally. -/
def firstErr (rs : List (List Ev × Except PyFault WorkerSt)) : Option PyFault :=
  rs.findSome? (fun r => match r.2 with | .error f => some f | .ok _ => none)

/-- guidDirOf models line 227: `GUID_dir = os.path.join(satellite_dir,
str(uuid.uuid4()))` — only a path string is computed; no directory is
created here. -/
def guidDirOf (env : Env) (cfg : MainCfg) : PyStr := cfg.dataset ++ pyS "/" ++ env.uuid

/-- mainRun models the driver: generate the GUID path, rewrite the config
file, POST the ASF query, save the query log; then, when the output is csv
and a download was requested, check the credentials (raising `ValueError`
on lines 365-374 when the site is not `AWS` and they are missing or
empty), build the download list, and run the pool.  `Pool.starmap` runs
every task to completion; if any task raised, the exception is re-raised
after the pool finishes and the completion/elapsed-time prints of lines
395-398 are skipped; otherwise they run.  Without a csv download request
the driver just prints that it is not downloading. -/
def mainRun (env : Env) (cfg : MainCfg) (downloadFlag : Bool) (rows : List CsvRow)
    (sts : Nat → WorkerSt) : List MEv × Except PyFault Unit :=
  let pre := [MEv.guidPath (guidDirOf env cfg), MEv.writeConfig, MEv.queryPost, MEv.saveLog]
  if cfg.output_format = pyS "csv" ∧ downloadFlag then
    if ¬(cfg.download_site = pyS "AWS") ∧ ¬(credsOk cfg = true) then
      (pre, .error PyFault.valueErr)
    else
      let results := jobResults env cfg.dataset (mainDownloadList cfg rows) sts
      let jobEvs := results.enum.bind (fun pr => pr.2.1.map (MEv.job pr.1))
      match firstErr results with
      | some f => (pre ++ jobEvs, .error f)
      | none => (pre ++ jobEvs ++ [MEv.downloadComplete, MEv.summary], .ok ())
  else
    (pre ++ [MEv.noDownloadMsg], .ok ())

/-- isGuidPathEv recognises the GUID path-generation event. -/
def isGuidPathEv : MEv → Bool
  | MEv.guidPath _ => true
  | _ => false

/-- createsGuidDir marks the events that create the GUID scratch directory
on disk: only `zip_ref.extractall(GUID_dir)` inside a worker (line 114)
creates it (`os.makedirs` of line 53 creates the dataset root, not the
GUID directory; line 227 only computes the path string). -/
def createsGuidDir : MEv → Bool
  | MEv.job _ Ev.extractAll => true
  | _ => false

/-- deletesGuidDir marks the events that would remove the GUID scratch
directory: none exists — the only directory removal in the pipeline is
`os.rmdir(dir_path)` of line 123, whose target is a subdirectory inside
the GUID directory (`Ev.rmdirSub`), never the GUID directory itself. -/
def deletesGuidDir : MEv → Bool
  | _ => false

def csvG1 : CsvRow := rowASF.toCsvRow

def csvG2 : CsvRow := { csvG1 with granuleName := pyS "G2", url := pyS "https://h/G2.zip" }

def cfgASF : MainCfg :=
  ⟨pyS "ASF", 2, pyS "csv", pyS "ds", some (pyS "u"), some (pyS "p"), pyS "s", pyS "e"⟩

def cfgAWS : MainCfg := { cfgASF with download_site := pyS "AWS" }

def cfgNoCred : MainCfg := { cfgASF with http_user := none }

/-! ### Theorems -/

theorem pySplitP_ne_nil (p : Char → Bool) (l : PyStr) : pySplitP p l ≠ [] := by
  cases l with
  | nil => simp [pySplitP]
  | cons x xs =>
    simp only [pySplitP]
    cases h : pySplitP p xs with
    | nil => simp
    | cons r rs =>
      by_cases hx : p x <;> simp [hx]

theorem pySplitP_sep (p : Char → Bool) (c : Char) (hc : p c = true) (t : PyStr) :
    pySplitP p (c :: t) = [] :: pySplitP p t := by
  simp only [pySplitP]
  cases h : pySplitP p t with
  | nil => exact absurd h (pySplitP_ne_nil p t)
  | cons r rs => simp [hc]

theorem pySplitP_not_sep (p : Char → Bool) (x : Char) (hx : p x = false) (t : PyStr) :
    ∃ r rs, pySplitP p t = r :: rs ∧ pySplitP p (x :: t) = (x :: r) :: rs := by
  cases h : pySplitP p t with
  | nil => exact absurd h (pySplitP_ne_nil p t)
  | cons r rs =>
    refine ⟨r, rs, rfl, ?_⟩
    simp only [pySplitP, h, hx]
    simp

/-- pySplitP over a clean piece followed by a separator cuts exactly at the
separator. -/
theorem pySplitP_append_sep (p : Char → Bool) (pre t : PyStr) (c : Char)
    (hpre : ∀ a ∈ pre, p a = false) (hc : p c = true) :
    pySplitP p (pre ++ c :: t) = pre :: pySplitP p t := by
  induction pre with
  | nil => simpa using pySplitP_sep p c hc t
  | cons x xs ih =>
    have hx : p x = false := hpre x (List.mem_cons_self x xs)
    have ih' := ih (fun a ha => hpre a (List.mem_cons_of_mem x ha))
    obtain ⟨r, rs, h1, h2⟩ := pySplitP_not_sep p x hx (xs ++ c :: t)
    rw [List.cons_append, h2]
    rw [ih'] at h1
    injection h1 with h1a h1b
    rw [h1a, h1b]

/-- pySplitP of a string with no separator characters is the single piece. -/
theorem pySplitP_no_sep (p : Char → Bool) (l : PyStr)
    (hl : ∀ a ∈ l, p a = false) : pySplitP p l = [l] := by
  induction l with
  | nil => rfl
  | cons x xs ih =>
    have hx : p x = false := hl x (List.mem_cons_self x xs)
    obtain ⟨r, rs, h1, h2⟩ := pySplitP_not_sep p x hx xs
    rw [ih (fun a ha => hl a (List.mem_cons_of_mem x ha))] at h1
    injection h1 with h1a h1b
    rw [h2, h1a, h1b]

theorem startswith_append (pre t : PyStr) : startswith pre (pre ++ t) = true := by
  induction pre with
  | nil => rfl
  | cons x xs ih => simp [startswith, ih]

theorem take_len (l t : PyStr) (n : Nat) (h : l.length = n) : (l ++ t).take n = l := by
  induction l generalizing n with
  | nil =>
    simp only [List.length_nil] at h
    subst h
    simp
  | cons x xs ih =>
    cases n with
    | zero => simp at h
    | succ k =>
      simp only [List.length_cons, Nat.succ.injEq] at h
      simp [List.take_succ_cons, ih k h]

theorem drop_len (l t : PyStr) (n : Nat) (h : l.length = n) : (l ++ t).drop n = t := by
  induction l generalizing n with
  | nil =>
    simp only [List.length_nil] at h
    subst h
    simp
  | cons x xs ih =>
    cases n with
    | zero => simp at h
    | succ k =>
      simp only [List.length_cons, Nat.succ.injEq] at h
      simp [ih k h]

/-- C7: the open-dataset URL is the fixed AWS base path followed by
`year/month/day` (characters `0:4`, `5:7`, `8:10` of the acquisition date)
and the granule name twice, ending in `.zip`.  Stated for an acquisition
date of the shape `YYYY-MM-DD...`: `awsUrl` (source lines 67-74) yields
`<base>/<year>/<month>/<day>/<granuleName>/<granuleName>.zip`. -/
theorem C7_aws_url_derivation (y m d rest name path frame url site wstr : PyStr)
    (hy : y.length = 4) (hm : m.length = 2) (hd : d.length = 2) :
    awsUrl { granuleName := name, pathNumber := path, frameNumber := frame,
             acquisitionDate := y ++ pyS "-" ++ m ++ pyS "-" ++ d ++ rest,
             url := url, downloadSite := site, asfWgetStr := wstr } =
    aws_baseurl ++ y ++ pyS "/" ++ m ++ pyS "/" ++ d ++ pyS "/" ++
      name ++ pyS "/" ++ name ++ pyS ".zip" := by
  have hdash : (pyS "-").length = 1 := rfl
  have e5 : y ++ pyS "-" ++ m ++ pyS "-" ++ d ++ rest =
      (y ++ pyS "-") ++ (m ++ (pyS "-" ++ (d ++ rest))) := by
    simp [List.append_assoc]
  have e8 : y ++ pyS "-" ++ m ++ pyS "-" ++ d ++ rest =
      (y ++ pyS "-" ++ m ++ pyS "-") ++ (d ++ rest) := by
    simp [List.append_assoc]
  have h4 : pySlice (y ++ pyS "-" ++ m ++ pyS "-" ++ d ++ rest) 0 4 = y := by
    unfold pySlice
    rw [List.drop_zero]
    have e4 : y ++ pyS "-" ++ m ++ pyS "-" ++ d ++ rest =
        y ++ (pyS "-" ++ (m ++ (pyS "-" ++ (d ++ rest)))) := by
      simp [List.append_assoc]
    rw [e4]
    exact take_len y _ 4 hy
  have h57 : pySlice (y ++ pyS "-" ++ m ++ pyS "-" ++ d ++ rest) 5 7 = m := by
    unfold pySlice
    rw [e5, drop_len (y ++ pyS "-") _ 5 (by simp [hy, hdash])]
    exact take_len m _ 2 hm
  have h810 : pySlice (y ++ pyS "-" ++ m ++ pyS "-" ++ d ++ rest) 8 10 = d := by
    unfold pySlice
    rw [e8, drop_len (y ++ pyS "-" ++ m ++ pyS "-") _ 8 (by simp [hy, hm, hdash])]
    exact take_len d _ 2 hd
  unfold awsUrl
  simp only [h4, h57, h810]
  simp [List.append_assoc]

/-- C10: parsing the authentication-option string extracts, for a
`--http-user=`/`--http-password=` token, only the substring between the
first and the second `=` of the token (`option.split('=')[1]`, source lines
92/94): a credential value that itself contains `=` is silently truncated
at that `=`.  Stated for a token whose value is `v1 ++ "=" ++ v2` with `v1`
free of `=`: the extracted credential is `v1`, not the full value. -/
theorem C10_cred_value_truncated_at_eq (v1 v2 : PyStr)
    (h1 : ∀ c ∈ v1, pyIsSpace c = false ∧ c ≠ '=')
    (h2 : ∀ c ∈ v2, pyIsSpace c = false) :
    parseWgetCreds (pyS "--http-user=" ++ v1 ++ '=' :: v2) = (some v1, none) ∧
    parseWgetCreds (pyS "--http-password=" ++ v1 ++ '=' :: v2) = (none, some v1) ∧
    v1 ≠ v1 ++ '=' :: v2 := by
  have hv1eq : ∀ a ∈ v1, (fun x => decide (x = '=')) a = false := by
    intro a ha
    exact decide_eq_false (h1 a ha).2
  have hv1sp : ∀ a ∈ v1, pyIsSpace a = false := fun a ha => (h1 a ha).1
  have hulit : ∀ a ∈ pyS "--http-user=", pyIsSpace a = false := by decide
  have hplit : ∀ a ∈ pyS "--http-password=", pyIsSpace a = false := by decide
  -- the user token
  have husr : parseWgetCreds (pyS "--http-user=" ++ (v1 ++ '=' :: v2)) = (some v1, none) := by
    have hnos : ∀ a ∈ pyS "--http-user=" ++ (v1 ++ '=' :: v2), pyIsSpace a = false := by
      intro a ha
      rcases List.mem_append.1 ha with h | h
      · exact hulit a h
      · rcases List.mem_append.1 h with h' | h'
        · exact hv1sp a h'
        · rcases List.mem_cons.1 h' with h'' | h''
          · subst h''; rfl
          · exact h2 a h''
    have hws : pySplitWs (pyS "--http-user=" ++ (v1 ++ '=' :: v2)) =
        [pyS "--http-user=" ++ (v1 ++ '=' :: v2)] := by
      unfold pySplitWs
      rw [pySplitP_no_sep pyIsSpace _ hnos]
      have : pyS "--http-user=" ++ (v1 ++ '=' :: v2) ≠ [] := List.cons_ne_nil _ _
      simp [this]
    have hsw : startswith (pyS "--http-user=") (pyS "--http-user=" ++ (v1 ++ '=' :: v2)) = true :=
      startswith_append _ _
    have hsplit : splitEqIndex1 (pyS "--http-user=" ++ (v1 ++ '=' :: v2)) = v1 := by
      unfold splitEqIndex1 pySplitChar
      have e : pyS "--http-user=" ++ (v1 ++ '=' :: v2) =
          pyS "--http-user" ++ '=' :: (v1 ++ '=' :: v2) := rfl
      rw [e, pySplitP_append_sep _ _ _ '=' (by decide) (by decide),
        pySplitP_append_sep _ _ _ '=' hv1eq (by decide)]
      rfl
    unfold parseWgetCreds
    rw [hws]
    simp only [List.foldl_cons, List.foldl_nil, hsw, if_true]
    simp [hsplit]
  -- the password token
  have hpwd : parseWgetCreds (pyS "--http-password=" ++ (v1 ++ '=' :: v2)) = (none, some v1) := by
    have hnos : ∀ a ∈ pyS "--http-password=" ++ (v1 ++ '=' :: v2), pyIsSpace a = false := by
      intro a ha
      rcases List.mem_append.1 ha with h | h
      · exact hplit a h
      · rcases List.mem_append.1 h with h' | h'
        · exact hv1sp a h'
        · rcases List.mem_cons.1 h' with h'' | h''
          · subst h''; rfl
          · exact h2 a h''
    have hws : pySplitWs (pyS "--http-password=" ++ (v1 ++ '=' :: v2)) =
        [pyS "--http-password=" ++ (v1 ++ '=' :: v2)] := by
      unfold pySplitWs
      rw [pySplitP_no_sep pyIsSpace _ hnos]
      have : pyS "--http-password=" ++ (v1 ++ '=' :: v2) ≠ [] := List.cons_ne_nil _ _
      simp [this]
    have hsw1 : startswith (pyS "--http-user=") (pyS "--http-password=" ++ (v1 ++ '=' :: v2)) = false := rfl
    have hsw2 : startswith (pyS "--http-password=") (pyS "--http-password=" ++ (v1 ++ '=' :: v2)) = true :=
      startswith_append _ _
    have hsplit : splitEqIndex1 (pyS "--http-password=" ++ (v1 ++ '=' :: v2)) = v1 := by
      unfold splitEqIndex1 pySplitChar
      have e : pyS "--http-password=" ++ (v1 ++ '=' :: v2) =
          pyS "--http-password" ++ '=' :: (v1 ++ '=' :: v2) := rfl
      rw [e, pySplitP_append_sep _ _ _ '=' (by decide) (by decide),
        pySplitP_append_sep _ _ _ '=' hv1eq (by decide)]
      rfl
    unfold parseWgetCreds
    rw [hws]
    simp only [List.foldl_cons, List.foldl_nil, hsw1, hsw2]
    simp [hsplit]
  refine ⟨by rw [List.append_assoc]; exact husr, by rw [List.append_assoc]; exact hpwd, ?_⟩
  intro h
  have := congrArg List.length h
  simp at this

/-- C10 witness: concrete instantiation with value `ab=cd`: the extracted
user and password are `ab`, not `ab=cd`. -/
theorem C10_cred_value_truncated_at_eq_witness :
    parseWgetCreds (pyS "--http-user=" ++ pyS "ab" ++ '=' :: pyS "cd") = (some (pyS "ab"), none) ∧
    parseWgetCreds (pyS "--http-password=" ++ pyS "ab" ++ '=' :: pyS "cd") = (none, some (pyS "ab")) ∧
    pyS "ab" ≠ pyS "ab" ++ '=' :: pyS "cd" :=
  C10_cred_value_truncated_at_eq (pyS "ab") (pyS "cd") (by decide) (by decide)

theorem lookupBytes_writeFile (m : FileMap) (n : PyStr) (c : ByteSeq) :
    lookupBytes (writeFile m n c) n = some c := by
  induction m with
  | nil => simp [writeFile, lookupBytes]
  | cons e rest ih =>
    obtain ⟨k, v⟩ := e
    by_cases h : k = n <;> simp [writeFile, lookupBytes, h, ih]

theorem lookupBytes_removeFile (m : FileMap) (n : PyStr) :
    lookupBytes (removeFile m n) n = none := by
  induction m with
  | nil => simp [removeFile, lookupBytes]
  | cons e rest ih =>
    obtain ⟨k, v⟩ := e
    by_cases h : k = n
    · simpa [removeFile, h] using ih
    · simpa [removeFile, lookupBytes, h] using ih

/-- C3: `downloadGranule_url` resolves the redirect with an unauthenticated
GET, then performs the authenticated GET against the resolved target (the
oracle call `env.authGet (env.redirectTarget url) username password`); on
status 200 it writes the response body verbatim to the file named by the
URL's final path segment, and on any other status it reports the failure
with the status code and writes no file. -/
theorem C3_url_download_protocol (env : Env) (cwd : FileMap) (url username password : PyStr) :
    ((env.authGet (env.redirectTarget url) username password).1 = 200 →
      (downloadGranule_url env cwd url username password).1 =
        writeFile cwd (lastSeg url) (env.authGet (env.redirectTarget url) username password).2 ∧
      ∀ s, Ev.httpFail s ∉ (downloadGranule_url env cwd url username password).2) ∧
    ((env.authGet (env.redirectTarget url) username password).1 ≠ 200 →
      (downloadGranule_url env cwd url username password).1 = cwd ∧
      Ev.httpFail (env.authGet (env.redirectTarget url) username password).1 ∈
        (downloadGranule_url env cwd url username password).2) := by
  constructor
  · intro h200
    unfold downloadGranule_url
    simp only [h200, if_true]
    by_cases hne : fileNonEmpty (writeFile cwd (lastSeg url)
        (env.authGet (env.redirectTarget url) username password).2) (lastSeg url) <;>
      simp [hne]
  · intro hnot
    unfold downloadGranule_url
    simp [hnot]

/-- C3 witness: a concrete oracle answering 200 writes the body, and one
answering 404 leaves the directory unchanged and reports `httpFail 404`. -/
theorem C3_url_download_protocol_witness :
    (downloadGranule_url
        ⟨fun _ => pyS "http://resolved/x.zip", fun _ _ _ => (200, [7, 8]), fun _ => none, pyS "u1"⟩
        [] (pyS "http://host/a/g1.zip") (pyS "u") (pyS "p")).1 =
      writeFile [] (lastSeg (pyS "http://host/a/g1.zip")) [7, 8] ∧
    (downloadGranule_url
        ⟨fun _ => pyS "http://resolved/x.zip", fun _ _ _ => (404, []), fun _ => none, pyS "u1"⟩
        [] (pyS "http://host/a/g1.zip") (pyS "u") (pyS "p")).1 = [] ∧
    Ev.httpFail 404 ∈ (downloadGranule_url
        ⟨fun _ => pyS "http://resolved/x.zip", fun _ _ _ => (404, []), fun _ => none, pyS "u1"⟩
        [] (pyS "http://host/a/g1.zip") (pyS "u") (pyS "p")).2 := by
  refine ⟨?_, ?_, ?_⟩
  · exact (C3_url_download_protocol
      ⟨fun _ => pyS "http://resolved/x.zip", fun _ _ _ => (200, [7, 8]), fun _ => none, pyS "u1"⟩
      [] (pyS "http://host/a/g1.zip") (pyS "u") (pyS "p")).1 rfl |>.1
  · exact (C3_url_download_protocol
      ⟨fun _ => pyS "http://resolved/x.zip", fun _ _ _ => (404, []), fun _ => none, pyS "u1"⟩
      [] (pyS "http://host/a/g1.zip") (pyS "u") (pyS "p")).2 (by decide) |>.1
  · exact (C3_url_download_protocol
      ⟨fun _ => pyS "http://resolved/x.zip", fun _ _ _ => (404, []), fun _ => none, pyS "u1"⟩
      [] (pyS "http://host/a/g1.zip") (pyS "u") (pyS "p")).2 (by decide) |>.2

theorem downloadGranule_url_evs (env : Env) (cwd : FileMap) (url u p : PyStr) :
    ∀ e ∈ (downloadGranule_url env cwd url u p).2, asfPhaseEv e = true := by
  unfold downloadGranule_url
  by_cases h : (env.authGet (env.redirectTarget url) u p).1 = 200
  · by_cases hne : fileNonEmpty (writeFile cwd (lastSeg url)
        (env.authGet (env.redirectTarget url) u p).2) (lastSeg url) <;>
      simp [h, hne, asfPhaseEv]
  · simp [h, asfPhaseEv]

theorem downloadGranule_url_asfCall (env : Env) (cwd : FileMap) (url u p : PyStr) :
    Ev.asfCall url u p ∈ (downloadGranule_url env cwd url u p).2 := by
  unfold downloadGranule_url
  by_cases h : (env.authGet (env.redirectTarget url) u p).1 = 200
  · by_cases hne : fileNonEmpty (writeFile cwd (lastSeg url)
        (env.authGet (env.redirectTarget url) u p).2) (lastSeg url) <;>
      simp [h, hne]
  · simp [h]

theorem flattenDir_evs (g : FsTree) (d0 : PyStr) (g2 : FsTree) (fevs : List Ev)
    (h : flattenDir g d0 = .ok (g2, fevs)) : ∀ e ∈ fevs, asfPhaseEv e = true := by
  unfold flattenDir at h
  split at h
  · split at h
    · cases h
    · split at h
      · injection h with h'
        injection h' with ha hb
        subst hb
        simp [asfPhaseEv]
      · cases h
  · injection h with h'
    injection h' with ha hb
    subst hb
    simp

theorem extractPhase_evs (env : Env) (st : WorkerSt) (zf : PyStr) :
    ∀ e ∈ (extractPhase env st zf).1, asfPhaseEv e = true := by
  unfold extractPhase
  cases hb : lookupBytes st.cwd zf with
  | none => simp [asfPhaseEv]
  | some bytes =>
    cases hz : env.unzip bytes with
    | none => simp [hz, asfPhaseEv]
    | some tree =>
      cases ht : topDirs (extractInto st.guid tree) with
      | nil => simp [hz, ht, asfPhaseEv]
      | cons d0 ds =>
        cases hf : flattenDir (extractInto st.guid tree) d0 with
        | error f => simp [hz, ht, hf, asfPhaseEv]
        | ok pr =>
          obtain ⟨g2, fevs⟩ := pr
          intro e he
          simp only [hz, ht, hf] at he
          simp only [List.append_assoc, List.cons_append, List.nil_append,
            List.mem_cons, List.mem_append, List.mem_singleton,
            List.not_mem_nil, or_false] at he
          rcases he with h1 | h1 | h1 | h1
          · subst h1; rfl
          · subst h1; rfl
          · exact flattenDir_evs _ _ _ _ hf e h1
          · subst h1; rfl

theorem asfBody_evs (env : Env) (row : GranuleRow) (st0 : WorkerSt) (status : Int) :
    ∀ e ∈ (asfBody env row st0 status).1, asfPhaseEv e = true := by
  unfold asfBody
  cases hc : parseWgetCreds row.asfWgetStr with
  | mk uo po =>
    cases uo with
    | none => simp
    | some u =>
      cases po with
      | none => simp
      | some p =>
        by_cases hs : status = 0
        · subst hs
          intro e he
          simp at he
          rcases he with h1 | h1
          · exact downloadGranule_url_evs env st0.cwd row.url u p e h1
          · exact extractPhase_evs env _ _ e h1
        · intro e he
          simp [hs] at he
          rcases he with h1 | h1
          · exact downloadGranule_url_evs env st0.cwd row.url u p e h1
          · subst h1; rfl

/-! ### Branch characterisations of downloadGranule -/
theorem downloadGranule_both (env : Env) (row : GranuleRow) (dataset : PyStr) (st : WorkerSt)
    (h : row.downloadSite = pyS "both") :
    downloadGranule env row dataset st =
      ((if st.datasetDirExists then [] else [Ev.mkdirs dataset]) ++ [Ev.tryAws (awsUrl row)],
       .ok { st with datasetDirExists := true }) := by
  have hba : ¬(pyS "both" = pyS "ASF") := by decide
  unfold downloadGranule
  rw [h]
  simp [hba]

theorem downloadGranule_aws (env : Env) (row : GranuleRow) (dataset : PyStr) (st : WorkerSt)
    (h : row.downloadSite = pyS "AWS") :
    downloadGranule env row dataset st =
      ((if st.datasetDirExists then [] else [Ev.mkdirs dataset]) ++ [Ev.tryAws (awsUrl row)],
       .ok { st with datasetDirExists := true }) := by
  have hba : ¬(pyS "AWS" = pyS "ASF") := by decide
  unfold downloadGranule
  rw [h]
  simp [hba]

theorem downloadGranule_asf (env : Env) (row : GranuleRow) (dataset : PyStr) (st : WorkerSt)
    (h : row.downloadSite = pyS "ASF") :
    downloadGranule env row dataset st =
      ((if st.datasetDirExists then [] else [Ev.mkdirs dataset]) ++
         (asfBody env row { st with datasetDirExists := true } 0).1,
       (asfBody env row { st with datasetDirExists := true } 0).2) := by
  have h1 : ¬(pyS "ASF" = pyS "AWS") := by decide
  have h2 : ¬(pyS "ASF" = pyS "both") := by decide
  unfold downloadGranule
  rw [h]
  simp [h1, h2]

theorem asfBody_asfCall (env : Env) (row : GranuleRow) (st0 : WorkerSt) (status : Int)
    (u p : PyStr) (hc : parseWgetCreds row.asfWgetStr = (some u, some p)) :
    Ev.asfCall row.url u p ∈ (asfBody env row st0 status).1 := by
  have hm := downloadGranule_url_asfCall env st0.cwd row.url u p
  unfold asfBody
  rw [hc]
  by_cases hs : status = 0
  · subst hs
    exact List.mem_append_left _ (List.mem_append_left _ hm)
  · simp only [if_neg hs]
    exact List.mem_append_left _ hm

/-- C1: for download-site `both`, the open-dataset branch runs first (the
AWS URL is built and its attempt — the transfer command, disabled in the
source — reports status 0) and authenticated retrieval happens if and only
if the open-dataset attempt failed (both sides are false: the hard-coded
status 0 never fails, so no `asfCall` is ever emitted for `both`); for
`ASF`, only the authenticated retrieval is attempted (no `tryAws` event,
and `asfCall` is emitted once the credentials parse); for `AWS`, there is
no fallback: no authenticated call and no download/extraction ever
happens. -/
theorem C1_download_site_policy (env : Env) (row : GranuleRow) (dataset : PyStr) (st : WorkerSt) :
    (row.downloadSite = pyS "both" →
      Ev.tryAws (awsUrl row) ∈ (downloadGranule env row dataset st).1 ∧
      ((∃ u p, Ev.asfCall row.url u p ∈ (downloadGranule env row dataset st).1) ↔
        (Ev.awsFailedFallback ∈ (downloadGranule env row dataset st).1 ∨
         Ev.awsFailedNoFallback ∈ (downloadGranule env row dataset st).1))) ∧
    (row.downloadSite = pyS "ASF" →
      (∀ u2, Ev.tryAws u2 ∉ (downloadGranule env row dataset st).1) ∧
      ∀ u p, parseWgetCreds row.asfWgetStr = (some u, some p) →
        Ev.asfCall row.url u p ∈ (downloadGranule env row dataset st).1) ∧
    (row.downloadSite = pyS "AWS" →
      (∀ url2 u p, Ev.asfCall url2 u p ∉ (downloadGranule env row dataset st).1) ∧
      ∀ zn, Ev.zipOpen zn ∉ (downloadGranule env row dataset st).1) := by
  refine ⟨?_, ?_, ?_⟩
  · intro h
    rw [downloadGranule_both env row dataset st h]
    by_cases hd : st.datasetDirExists <;> simp [hd]
  · intro h
    rw [downloadGranule_asf env row dataset st h]
    constructor
    · intro u2 hmem
      rcases List.mem_append.1 hmem with h1 | h1
      · by_cases hd : st.datasetDirExists
        · rw [if_pos hd] at h1; cases h1
        · rw [if_neg hd] at h1; simp at h1
      · have := asfBody_evs env row _ 0 _ h1
        simp [asfPhaseEv] at this
    · intro u p hc
      exact List.mem_append_right _ (asfBody_asfCall env row _ 0 u p hc)
  · intro h
    rw [downloadGranule_aws env row dataset st h]
    constructor
    · intro url2 u p hmem
      by_cases hd : st.datasetDirExists <;> simp [hd] at hmem
    · intro zn hmem
      by_cases hd : st.datasetDirExists <;> simp [hd] at hmem

/-- C1 witness: concrete rows for the three site values: `both` emits the
`tryAws` event and never calls ASF; `ASF` calls ASF with the parsed
credentials; `AWS` never opens an archive. -/
theorem C1_download_site_policy_witness :
    Ev.tryAws (awsUrl rowBoth) ∈ (downloadGranule env403 rowBoth (pyS "ds") stEmpty).1 ∧
    Ev.asfCall rowASF.url (pyS "u") (pyS "p") ∈
      (downloadGranule env403 rowASF (pyS "ds") stEmpty).1 ∧
    ∀ zn, Ev.zipOpen zn ∉ (downloadGranule env403 rowAWS (pyS "ds") stEmpty).1 := by
  refine ⟨?_, ?_, ?_⟩
  · exact ((C1_download_site_policy env403 rowBoth (pyS "ds") stEmpty).1 rfl).1
  · exact ((C1_download_site_policy env403 rowASF (pyS "ds") stEmpty).2.1 rfl).2
      (pyS "u") (pyS "p") (by decide)
  · exact ((C1_download_site_policy env403 rowAWS (pyS "ds") stEmpty).2.2 rfl).2

/-! ### C2: the integrity check only logs; extraction is unconditional -/
theorem fileNonEmpty_writeFile (m : FileMap) (n : PyStr) (c : ByteSeq) :
    fileNonEmpty (writeFile m n c) n = decide (0 < c.length) := by
  unfold fileNonEmpty
  rw [lookupBytes_writeFile]

theorem flattenDir_shape (g : FsTree) (d0 : PyStr) (g2 : FsTree) (fevs : List Ev)
    (h : flattenDir g d0 = .ok (g2, fevs)) : fevs = [] ∨ fevs = [Ev.rmdirSub d0] := by
  unfold flattenDir at h
  split at h
  · split at h
    · cases h
    · split at h
      · injection h with h'
        injection h' with ha hb
        exact Or.inr hb.symm
      · cases h
  · injection h with h'
    injection h' with ha hb
    exact Or.inl hb.symm

theorem extractPhase_no_fileOk (env : Env) (st : WorkerSt) (zf n : PyStr) :
    Ev.fileOk n ∉ (extractPhase env st zf).1 := by
  unfold extractPhase
  cases hb : lookupBytes st.cwd zf with
  | none => simp
  | some bytes =>
    cases hz : env.unzip bytes with
    | none => simp [hz]
    | some tree =>
      cases ht : topDirs (extractInto st.guid tree) with
      | nil => simp [hz, ht]
      | cons d0 ds =>
        cases hf : flattenDir (extractInto st.guid tree) d0 with
        | error f => simp [hz, ht, hf]
        | ok pr =>
          obtain ⟨g2, fevs⟩ := pr
          rcases flattenDir_shape _ _ _ _ hf with h | h <;> subst h <;> simp [hz, ht, hf]

theorem extractPhase_zipOpen (env : Env) (st : WorkerSt) (zf : PyStr) :
    Ev.zipOpen zf ∈ (extractPhase env st zf).1 := by
  unfold extractPhase
  cases hb : lookupBytes st.cwd zf with
  | none => simp
  | some bytes =>
    cases hz : env.unzip bytes with
    | none => simp [hz]
    | some tree =>
      cases ht : topDirs (extractInto st.guid tree) with
      | nil => simp [hz, ht]
      | cons d0 ds =>
        cases hf : flattenDir (extractInto st.guid tree) d0 with
        | error f => simp [hz, ht, hf]
        | ok pr =>
          obtain ⟨g2, fevs⟩ := pr
          simp [hz, ht, hf]

theorem asfBody_zipOpen (env : Env) (row : GranuleRow) (st0 : WorkerSt)
    (u p : PyStr) (hc : parseWgetCreds row.asfWgetStr = (some u, some p)) :
    Ev.zipOpen (row.granuleName ++ pyS ".zip") ∈ (asfBody env row st0 0).1 := by
  unfold asfBody
  rw [hc]
  exact List.mem_append_right _ (extractPhase_zipOpen env _ _)

theorem asfBody_fileOk (env : Env) (row : GranuleRow) (st0 : WorkerSt)
    (u p : PyStr) (hc : parseWgetCreds row.asfWgetStr = (some u, some p)) (n : PyStr) :
    Ev.fileOk n ∈ (asfBody env row st0 0).1 ↔
      Ev.fileOk n ∈ (downloadGranule_url env st0.cwd row.url u p).2 := by
  have hext := extractPhase_no_fileOk env
    { st0 with cwd := (downloadGranule_url env st0.cwd row.url u p).1 }
    (row.granuleName ++ pyS ".zip") n
  unfold asfBody
  rw [hc]
  constructor
  · intro h
    rcases List.mem_append.1 h with h1 | h1
    · rcases List.mem_append.1 h1 with h2 | h2
      · exact h2
      · cases h2
    · exact absurd h1 hext
  · intro h
    exact List.mem_append_left _ (List.mem_append_left _ h)

theorem downloadGranule_url_fileOk (env : Env) (cwd : FileMap) (url u p : PyStr) :
    Ev.fileOk (lastSeg url) ∈ (downloadGranule_url env cwd url u p).2 ↔
      ((env.authGet (env.redirectTarget url) u p).1 = 200 ∧
        0 < (env.authGet (env.redirectTarget url) u p).2.length) := by
  unfold downloadGranule_url
  simp only [fileNonEmpty_writeFile]
  by_cases h200 : (env.authGet (env.redirectTarget url) u p).1 = 200
  · by_cases hlen : 0 < (env.authGet (env.redirectTarget url) u p).2.length
    · simp [h200, hlen]
    · simp [h200, hlen]
  · simp [h200]

/-- C2 (amended, proved): on the authenticated path the extraction step is
attempted unconditionally — the `status == 0` gate of line 101 always holds
since `downloadGranule_url` returns nothing and `status` stays 0 — while
the integrity check of lines 154-158 only logs: the `fileOk` line is
printed if and only if the HTTP status was 200 and the body written was
non-empty.  A missing or empty download does not stop the `zipfile.ZipFile`
call on the granule archive. -/
theorem C2_extraction_always_attempted (env : Env) (row : GranuleRow) (dataset : PyStr)
    (st : WorkerSt) (u p : PyStr)
    (hsite : row.downloadSite = pyS "ASF")
    (hc : parseWgetCreds row.asfWgetStr = (some u, some p)) :
    Ev.zipOpen (row.granuleName ++ pyS ".zip") ∈ (downloadGranule env row dataset st).1 ∧
    (Ev.fileOk (lastSeg row.url) ∈ (downloadGranule env row dataset st).1 ↔
      ((env.authGet (env.redirectTarget row.url) u p).1 = 200 ∧
        0 < (env.authGet (env.redirectTarget row.url) u p).2.length)) := by
  rw [downloadGranule_asf env row dataset st hsite]
  constructor
  · exact List.mem_append_right _ (asfBody_zipOpen env row _ u p hc)
  · have h1 : Ev.fileOk (lastSeg row.url) ∈
        ((if st.datasetDirExists then [] else [Ev.mkdirs dataset]) ++
          (asfBody env row { st with datasetDirExists := true } 0).1) ↔
        Ev.fileOk (lastSeg row.url) ∈ (asfBody env row { st with datasetDirExists := true } 0).1 := by
      constructor
      · intro h
        rcases List.mem_append.1 h with h2 | h2
        · by_cases hd : st.datasetDirExists
          · rw [if_pos hd] at h2; cases h2
          · rw [if_neg hd] at h2; simp at h2
        · exact h2
      · exact List.mem_append_right _
    exact h1.trans ((asfBody_fileOk env row _ u p hc _).trans
      (downloadGranule_url_fileOk env st.cwd row.url u p))

/-- C2 witness: with a 403-answering oracle, the extraction step is still
reached (the `zipOpen` event occurs) and no `fileOk` line is printed. -/
theorem C2_extraction_always_attempted_witness :
    Ev.zipOpen (rowASF.granuleName ++ pyS ".zip") ∈
      (downloadGranule env403 rowASF (pyS "ds") stEmpty).1 ∧
    (Ev.fileOk (lastSeg rowASF.url) ∈ (downloadGranule env403 rowASF (pyS "ds") stEmpty).1 ↔
      ((env403.authGet (env403.redirectTarget rowASF.url) (pyS "u") (pyS "p")).1 = 200 ∧
        0 < (env403.authGet (env403.redirectTarget rowASF.url) (pyS "u") (pyS "p")).2.length)) :=
  C2_extraction_always_attempted env403 rowASF (pyS "ds") stEmpty (pyS "u") (pyS "p")
    rfl (by decide)

/-- C2 counterexample: for a granule with site `ASF` whose authenticated
download answers 403, no file is written, yet the extraction step is
invoked on the (missing) archive — the run faults with
`FileNotFoundError` — refuting "a zero-length or missing file is never
passed to the extraction step". -/
theorem C2_counterexample_missing_file_extracted :
    Ev.zipOpen (pyS "G1.zip") ∈ (downloadGranule env403 rowASF (pyS "ds") stEmpty).1 ∧
    (downloadGranule env403 rowASF (pyS "ds") stEmpty).2 = .error PyFault.fileNotFound ∧
    lookupBytes stEmpty.cwd (pyS "G1.zip") = none := by
  refine ⟨by decide, rfl, rfl⟩

/-! ### C4/C5: normalization of the extracted archive -/
theorem hasName_append (t1 t2 : FsTree) (n : PyStr) :
    hasName (t1 ++ t2) n = (hasName t1 n || hasName t2 n) := by
  unfold hasName
  induction t1 with
  | nil => simp [lookupNode]
  | cons e rest ih =>
    obtain ⟨k, v⟩ := e
    by_cases h : k = n <;> simp [lookupNode, h, ih]

theorem moveAllUp_ok (items : List (PyStr × Node)) (top : FsTree)
    (h : ∀ n ∈ items.map Prod.fst, hasName top n = false)
    (hnd : (items.map Prod.fst).Nodup) :
    moveAllUp top items = .ok (top ++ items) := by
  induction items generalizing top with
  | nil => simp [moveAllUp]
  | cons it rest ih =>
    obtain ⟨n, nd⟩ := it
    simp only [List.map_cons, List.nodup_cons] at hnd
    obtain ⟨hnn1, hnn2⟩ := hnd
    have hn : hasName top n = false := h n (List.mem_cons_self _ _)
    have hrest : ∀ m ∈ rest.map Prod.fst, hasName (top ++ [(n, nd)]) m = false := by
      intro m hm
      rw [hasName_append]
      have h1 : hasName top m = false := h m (List.mem_cons_of_mem _ hm)
      have hmn : n ≠ m := fun he => hnn1 (he ▸ hm)
      have h2 : hasName [(n, nd)] m = false := by
        simp [hasName, lookupNode, hmn]
      simp [h1, h2]
    unfold moveAllUp
    simp only [hn, Bool.false_eq_true, if_false]
    rw [ih _ hrest hnn2]
    simp [List.append_assoc]

theorem asfBody_outcome (env : Env) (row : GranuleRow) (st0 : WorkerSt)
    (u p : PyStr) (bytes : ByteSeq)
    (hc : parseWgetCreds row.asfWgetStr = (some u, some p))
    (hname : lastSeg row.url = row.granuleName ++ pyS ".zip")
    (hget : env.authGet (env.redirectTarget row.url) u p = (200, bytes)) :
    (asfBody env row st0 0).2 =
      (extractPhase env
        { st0 with cwd := writeFile st0.cwd (row.granuleName ++ pyS ".zip") bytes }
        (row.granuleName ++ pyS ".zip")).2 := by
  have hres : (downloadGranule_url env st0.cwd row.url u p).1 =
      writeFile st0.cwd (row.granuleName ++ pyS ".zip") bytes := by
    simp only [downloadGranule_url]
    rw [hget, hname]
    simp [apply_ite]
  unfold asfBody
  rw [hc]
  simp [hres]

theorem extractPhase_flatten_one (env : Env) (stW : WorkerSt) (zf : PyStr) (bytes : ByteSeq)
    (D a b : PyStr) (ca cb : ByteSeq)
    (hlk : lookupBytes stW.cwd zf = some bytes)
    (hz : env.unzip bytes = some [(D, Node.dir [(a, Node.file ca), (b, Node.file cb)])])
    (hguid : stW.guid = [])
    (hab : ¬(a = b)) (haD : ¬(a = D)) (hbD : ¬(b = D)) :
    (extractPhase env stW zf).2 =
      .ok
        { stW with
          cwd := removeFile stW.cwd zf,
          guid := [(a, Node.file ca), (b, Node.file cb)] } := by
  have hDa : ¬(D = a) := fun h => haD h.symm
  have hDb : ¬(D = b) := fun h => hbD h.symm
  unfold extractPhase
  rw [hlk]
  simp only [hz, hguid, extractInto, List.filter_nil, List.nil_append]
  simp [topDirs, listdir, isDirAt, lookupNode, flattenDir, setNode, moveAllUp, hasName,
    removeName, hDa, hDb, hab, haD, hbD]

theorem extractPhase_no_dir (env : Env) (stW : WorkerSt) (zf : PyStr) (bytes : ByteSeq)
    (tree : FsTree)
    (hlk : lookupBytes stW.cwd zf = some bytes)
    (hz : env.unzip bytes = some tree)
    (hguid : stW.guid = [])
    (hnd : topDirs tree = []) :
    (extractPhase env stW zf).2 = .error PyFault.indexErr := by
  unfold extractPhase
  rw [hlk]
  simp only [hz, hguid, extractInto, List.filter_nil, List.nil_append, hnd]

theorem extractPhase_two_dirs (env : Env) (stW : WorkerSt) (zf : PyStr) (bytes : ByteSeq)
    (D1 D2 : PyStr) (cs1 cs2 : List (PyStr × Node))
    (hlk : lookupBytes stW.cwd zf = some bytes)
    (hz : env.unzip bytes = some [(D1, Node.dir cs1), (D2, Node.dir cs2)])
    (hguid : stW.guid = [])
    (hnd : (cs1.map Prod.fst).Nodup)
    (hns : ∀ n ∈ cs1.map Prod.fst, ¬(n = D1) ∧ ¬(n = D2))
    (h12 : ¬(D1 = D2)) :
    (extractPhase env stW zf).2 =
      .ok
        { stW with
          cwd := removeFile stW.cwd zf,
          guid := (D2, Node.dir cs2) :: cs1 } := by
  have h21 : ¬(D2 = D1) := fun h => h12 h.symm
  have hmv : moveAllUp [(D1, Node.dir []), (D2, Node.dir cs2)] cs1 =
      .ok ([(D1, Node.dir []), (D2, Node.dir cs2)] ++ cs1) := by
    refine moveAllUp_ok cs1 _ ?_ hnd
    intro n hn
    have h1 : ¬(D1 = n) := fun h => (hns n hn).1 h.symm
    have h2 : ¬(D2 = n) := fun h => (hns n hn).2 h.symm
    simp [hasName, lookupNode, h1, h2]
  have hfilter : cs1.filter (fun e => e.1 ≠ D1) = cs1 := by
    rw [List.filter_eq_self]
    intro e he
    have : e.1 ∈ cs1.map Prod.fst := List.mem_map_of_mem Prod.fst he
    simpa using (hns e.1 this).1
  unfold extractPhase
  rw [hlk]
  simp only [hz, hguid, extractInto, List.filter_nil, List.nil_append]
  simp [topDirs, listdir, isDirAt, lookupNode, flattenDir, setNode, hmv, hasName,
    removeName, h12, h21, hfilter]
  intro a b hab
  exact (hns a (List.mem_map_of_mem Prod.fst hab)).1

/-- C4: for an archive whose extracted content is exactly one top-level
directory `D` containing exactly the files `a` and `b` (names pairwise
distinct), a successful authenticated download followed by normalization
leaves the GUID target directory containing exactly `a` and `b` directly,
no `D` entry remains, and the archive file has been removed from the
working directory. -/
theorem C4_normalization_flattens_single_dir (env : Env) (row : GranuleRow) (dataset : PyStr)
    (st : WorkerSt) (u p : PyStr) (bytes ca cb : ByteSeq) (D a b : PyStr)
    (hsite : row.downloadSite = pyS "ASF")
    (hc : parseWgetCreds row.asfWgetStr = (some u, some p))
    (hguid : st.guid = [])
    (hname : lastSeg row.url = row.granuleName ++ pyS ".zip")
    (hget : env.authGet (env.redirectTarget row.url) u p = (200, bytes))
    (hzip : env.unzip bytes = some [(D, Node.dir [(a, Node.file ca), (b, Node.file cb)])])
    (hab : ¬(a = b)) (haD : ¬(a = D)) (hbD : ¬(b = D)) :
    ∃ stf, (downloadGranule env row dataset st).2 = .ok stf ∧
      stf.guid = [(a, Node.file ca), (b, Node.file cb)] ∧
      lookupNode stf.guid D = none ∧
      lookupBytes stf.cwd (row.granuleName ++ pyS ".zip") = none := by
  have hout := asfBody_outcome env row { st with datasetDirExists := true } u p bytes hc hname hget
  have hep := extractPhase_flatten_one env
      { cwd := writeFile st.cwd (row.granuleName ++ pyS ".zip") bytes, guid := st.guid,
        datasetDirExists := true }
      (row.granuleName ++ pyS ".zip") bytes D a b ca cb
      (lookupBytes_writeFile _ _ _) hzip hguid hab haD hbD
  refine ⟨{ cwd := removeFile (writeFile st.cwd (row.granuleName ++ pyS ".zip") bytes)
              (row.granuleName ++ pyS ".zip"),
            guid := [(a, Node.file ca), (b, Node.file cb)],
            datasetDirExists := true }, ?_, ?_, ?_, ?_⟩
  · rw [downloadGranule_asf env row dataset st hsite, hout]
    exact hep
  · rfl
  · simp [lookupNode, haD, hbD]
  · exact lookupBytes_removeFile _ _

/-- C4 witness: a concrete archive `D/{a, b}` is flattened into the GUID
directory, `D` disappears and `G1.zip` is removed. -/
theorem C4_normalization_flattens_single_dir_witness :
    ∃ stf, (downloadGranule envC4 rowASF (pyS "ds") stEmpty).2 = .ok stf ∧
      stf.guid = [(pyS "a", Node.file [1]), (pyS "b", Node.file [2])] ∧
      lookupNode stf.guid (pyS "D") = none ∧
      lookupBytes stf.cwd (rowASF.granuleName ++ pyS ".zip") = none :=
  C4_normalization_flattens_single_dir envC4 rowASF (pyS "ds") stEmpty (pyS "u") (pyS "p")
    [9] [1] [2] (pyS "D") (pyS "a") (pyS "b")
    rfl (by decide) rfl (by decide) rfl rfl (by decide) (by decide) (by decide)

/-- C5 (amended, proved): when the extracted content has no top-level
directory, the indexing `extracted_dirs[0]` of source line 117 raises an
unhandled `IndexError` (no failure is reported); when it has more than one
top-level directory, only the first is flattened — the run completes
without reporting any failure and the second directory survives intact. -/
theorem C5_zero_or_multiple_top_dirs (env : Env) (row : GranuleRow) (dataset : PyStr)
    (st : WorkerSt) (u p : PyStr) (bytes : ByteSeq)
    (hsite : row.downloadSite = pyS "ASF")
    (hc : parseWgetCreds row.asfWgetStr = (some u, some p))
    (hguid : st.guid = [])
    (hname : lastSeg row.url = row.granuleName ++ pyS ".zip")
    (hget : env.authGet (env.redirectTarget row.url) u p = (200, bytes)) :
    (∀ tree, env.unzip bytes = some tree → topDirs tree = [] →
      (downloadGranule env row dataset st).2 = .error PyFault.indexErr) ∧
    (∀ D1 D2 cs1 cs2, env.unzip bytes = some [(D1, Node.dir cs1), (D2, Node.dir cs2)] →
      (cs1.map Prod.fst).Nodup →
      (∀ n ∈ cs1.map Prod.fst, ¬(n = D1) ∧ ¬(n = D2)) → ¬(D1 = D2) →
      ∃ stf, (downloadGranule env row dataset st).2 = .ok stf ∧
        lookupNode stf.guid D2 = some (Node.dir cs2)) := by
  have hout := asfBody_outcome env row { st with datasetDirExists := true } u p bytes hc hname hget
  constructor
  · intro tree hz hnd
    rw [downloadGranule_asf env row dataset st hsite, hout]
    exact extractPhase_no_dir env _ _ bytes tree (lookupBytes_writeFile _ _ _) hz hguid hnd
  · intro D1 D2 cs1 cs2 hz hnd hns h12
    have hep := extractPhase_two_dirs env
        { cwd := writeFile st.cwd (row.granuleName ++ pyS ".zip") bytes, guid := st.guid,
          datasetDirExists := true }
        (row.granuleName ++ pyS ".zip") bytes D1 D2 cs1 cs2
        (lookupBytes_writeFile _ _ _) hz hguid hnd hns h12
    refine ⟨{ cwd := removeFile (writeFile st.cwd (row.granuleName ++ pyS ".zip") bytes)
                (row.granuleName ++ pyS ".zip"),
              guid := (D2, Node.dir cs2) :: cs1,
              datasetDirExists := true }, ?_, ?_⟩
    · rw [downloadGranule_asf env row dataset st hsite, hout]
      exact hep
    · simp [lookupNode]

/-- C5 counterexample: an archive extracting to a single top-level file and
no directory makes the worker fault with an unhandled `IndexError` —
refuting "normalization reports a failure rather than raising an unhandled
fault". -/
theorem C5_counterexample_unhandled_fault :
    (downloadGranule envC5zero rowASF (pyS "ds") stEmpty).2 = .error PyFault.indexErr := by
  rfl

/-- C5 witness: the zero-directory archive faults with `IndexError`, and a
two-directory archive completes with the second directory untouched. -/
theorem C5_zero_or_multiple_top_dirs_witness :
    (downloadGranule envC5zero rowASF (pyS "ds") stEmpty).2 = .error PyFault.indexErr ∧
    ∃ stf, (downloadGranule envC5two rowASF (pyS "ds") stEmpty).2 = .ok stf ∧
      lookupNode stf.guid (pyS "D2") = some (Node.dir [(pyS "y", Node.file [2])]) := by
  constructor
  · exact (C5_zero_or_multiple_top_dirs envC5zero rowASF (pyS "ds") stEmpty (pyS "u") (pyS "p")
      [9] rfl (by decide) rfl (by decide) rfl).1 [(pyS "f", Node.file [3])] rfl rfl
  · exact (C5_zero_or_multiple_top_dirs envC5two rowASF (pyS "ds") stEmpty (pyS "u") (pyS "p")
      [9] rfl (by decide) rfl (by decide) rfl).2 (pyS "D1") (pyS "D2")
      [(pyS "x", Node.file [1])] [(pyS "y", Node.file [2])] rfl (by decide) (by decide)
      (by decide)

theorem deletesGuidDir_false (e : MEv) : deletesGuidDir e = false := rfl

theorem jobEvs_shape (results : List (List Ev × Except PyFault WorkerSt)) :
    ∀ e ∈ results.enum.bind (fun pr => pr.2.1.map (MEv.job pr.1)),
      ∃ i ev, e = MEv.job i ev := by
  intro e he
  rcases List.mem_bind.1 he with ⟨pr, hpr, hme⟩
  rcases List.mem_map.1 hme with ⟨ev, hev, hre⟩
  exact ⟨pr.1, ev, hre.symm⟩

theorem mainRun_evs_shape (env : Env) (cfg : MainCfg) (dflag : Bool) (rows : List CsvRow)
    (sts : Nat → WorkerSt) :
    ∃ X, (mainRun env cfg dflag rows sts).1 =
      [MEv.guidPath (guidDirOf env cfg), MEv.writeConfig, MEv.queryPost, MEv.saveLog] ++ X ∧
      ∀ e ∈ X, (∃ i ev, e = MEv.job i ev) ∨ e = MEv.noDownloadMsg ∨
        e = MEv.downloadComplete ∨ e = MEv.summary := by
  unfold mainRun
  by_cases h1 : cfg.output_format = pyS "csv" ∧ dflag = true
  · rw [if_pos h1]
    by_cases h2 : ¬(cfg.download_site = pyS "AWS") ∧ ¬(credsOk cfg = true)
    · rw [if_pos h2]
      exact ⟨[], by simp, by simp⟩
    · rw [if_neg h2]
      cases hfe : firstErr (jobResults env cfg.dataset (mainDownloadList cfg rows) sts) with
      | some f =>
        refine ⟨(jobResults env cfg.dataset (mainDownloadList cfg rows) sts).enum.bind
            (fun pr => pr.2.1.map (MEv.job pr.1)), by simp [hfe], ?_⟩
        intro e he
        exact Or.inl (jobEvs_shape _ e he)
      | none =>
        refine ⟨((jobResults env cfg.dataset (mainDownloadList cfg rows) sts).enum.bind
            (fun pr => pr.2.1.map (MEv.job pr.1))) ++ [MEv.downloadComplete, MEv.summary],
            by simp [hfe], ?_⟩
        intro e he
        rcases List.mem_append.1 he with h3 | h3
        · exact Or.inl (jobEvs_shape _ e h3)
        · simp only [List.mem_cons, List.not_mem_nil, or_false] at h3
          rcases h3 with h3 | h3
          · exact Or.inr (Or.inr (Or.inl h3))
          · exact Or.inr (Or.inr (Or.inr h3))
  · rw [if_neg h1]
    exact ⟨[MEv.noDownloadMsg], by simp, by simp⟩

/-- C6 (amended, proved): with a csv download requested, a non-`AWS` site
and missing or empty credentials, the run aborts with `ValueError` before
any worker is dispatched — no job event occurs, hence no worker-side
directory creation — and before the download phase; by that point the
search-query POST and its log write have already happened, and no summary
is printed. -/
theorem C6_missing_creds_abort_before_pool (env : Env) (cfg : MainCfg) (rows : List CsvRow)
    (sts : Nat → WorkerSt)
    (hcsv : cfg.output_format = pyS "csv")
    (hsite : ¬(cfg.download_site = pyS "AWS"))
    (hcred : credsOk cfg = false) :
    mainRun env cfg true rows sts =
      ([MEv.guidPath (guidDirOf env cfg), MEv.writeConfig, MEv.queryPost, MEv.saveLog],
       .error PyFault.valueErr) ∧
    (∀ i e, MEv.job i e ∉ (mainRun env cfg true rows sts).1) ∧
    MEv.queryPost ∈ (mainRun env cfg true rows sts).1 ∧
    MEv.summary ∉ (mainRun env cfg true rows sts).1 := by
  have hmain : mainRun env cfg true rows sts =
      ([MEv.guidPath (guidDirOf env cfg), MEv.writeConfig, MEv.queryPost, MEv.saveLog],
       .error PyFault.valueErr) := by
    unfold mainRun
    rw [if_pos ⟨hcsv, rfl⟩, if_pos ⟨hsite, by simp [hcred]⟩]
  refine ⟨hmain, ?_, ?_, ?_⟩
  · intro i e
    rw [hmain]
    simp
  · rw [hmain]
    simp
  · rw [hmain]
    simp

/-- C6 witness: a concrete config with site `ASF` and no http-user aborts
with `ValueError`, no job runs, and the query POST already happened. -/
theorem C6_missing_creds_abort_before_pool_witness :
    mainRun env403 cfgNoCred true [csvG1] (fun _ => stEmpty) =
      ([MEv.guidPath (guidDirOf env403 cfgNoCred), MEv.writeConfig, MEv.queryPost, MEv.saveLog],
       .error PyFault.valueErr) ∧
    (∀ i e, MEv.job i e ∉ (mainRun env403 cfgNoCred true [csvG1] (fun _ => stEmpty)).1) ∧
    MEv.queryPost ∈ (mainRun env403 cfgNoCred true [csvG1] (fun _ => stEmpty)).1 ∧
    MEv.summary ∉ (mainRun env403 cfgNoCred true [csvG1] (fun _ => stEmpty)).1 :=
  C6_missing_creds_abort_before_pool env403 cfgNoCred [csvG1] (fun _ => stEmpty)
    rfl (by decide) rfl

/-- C6 counterexample: in the aborting run itself, the search-query POST
(a network call, line 319) is already in the trace — refuting "the run
aborts ... before any network call is made". -/
theorem C6_counterexample_query_post_before_abort :
    (mainRun env403 cfgNoCred true [csvG1] (fun _ => stEmpty)).2 = .error PyFault.valueErr ∧
    MEv.queryPost ∈ (mainRun env403 cfgNoCred true [csvG1] (fun _ => stEmpty)).1 :=
  ⟨rfl, by decide⟩

/-- C8 (amended, proved): the pool receives exactly one job per granule
row; every job's events appear in the run trace with its own index — all
jobs run to completion regardless of other jobs' outcomes — but the
elapsed-time summary is printed if and only if no worker raised an
unhandled exception: `Pool.starmap` re-raises a worker exception after the
pool finishes, skipping the completion and elapsed-time prints. -/
theorem C8_one_job_each_summary_iff_no_fault (env : Env) (cfg : MainCfg) (rows : List CsvRow)
    (sts : Nat → WorkerSt)
    (hcsv : cfg.output_format = pyS "csv")
    (hok : cfg.download_site = pyS "AWS" ∨ credsOk cfg = true) :
    (jobResults env cfg.dataset (mainDownloadList cfg rows) sts).length = rows.length ∧
    (∀ pr ∈ (jobResults env cfg.dataset (mainDownloadList cfg rows) sts).enum,
      ∀ e ∈ pr.2.1, MEv.job pr.1 e ∈ (mainRun env cfg true rows sts).1) ∧
    (MEv.summary ∈ (mainRun env cfg true rows sts).1 ↔
      firstErr (jobResults env cfg.dataset (mainDownloadList cfg rows) sts) = none) := by
  have habort : ¬(¬(cfg.download_site = pyS "AWS") ∧ ¬(credsOk cfg = true)) := by
    rcases hok with h | h <;> simp [h]
  refine ⟨by simp [jobResults, mainDownloadList], ?_, ?_⟩
  · intro pr hpr e he
    have hj : MEv.job pr.1 e ∈
        (jobResults env cfg.dataset (mainDownloadList cfg rows) sts).enum.bind
          (fun q => q.2.1.map (MEv.job q.1)) :=
      List.mem_bind.2 ⟨pr, hpr, List.mem_map_of_mem _ he⟩
    unfold mainRun
    rw [if_pos ⟨hcsv, rfl⟩, if_neg habort]
    cases hfe : firstErr (jobResults env cfg.dataset (mainDownloadList cfg rows) sts) with
    | some f =>
      simp only [hfe]
      exact List.mem_append_right _ hj
    | none =>
      simp only [hfe]
      exact List.mem_append_left _ (List.mem_append_right _ hj)
  · unfold mainRun
    rw [if_pos ⟨hcsv, rfl⟩, if_neg habort]
    cases hfe : firstErr (jobResults env cfg.dataset (mainDownloadList cfg rows) sts) with
    | some f =>
      simp only [hfe]
      constructor
      · intro hsum
        rcases List.mem_append.1 hsum with h3 | h3
        · simp at h3
        · rcases jobEvs_shape _ _ h3 with ⟨i, ev, hev⟩
          simp at hev
      · intro h3
        exact absurd h3 (by simp)
    | none =>
      simp only [hfe]
      constructor
      · intro _
        trivial
      · intro _
        exact List.mem_append_right _ (by simp)

/-- C8 witness: a single-row run with credentials present: one job, its
events in the trace, and the summary-iff-no-fault equivalence. -/
theorem C8_one_job_each_summary_iff_no_fault_witness :
    (jobResults env403 cfgASF.dataset (mainDownloadList cfgASF [csvG1])
      (fun _ => stEmpty)).length = [csvG1].length ∧
    (∀ pr ∈ (jobResults env403 cfgASF.dataset (mainDownloadList cfgASF [csvG1])
        (fun _ => stEmpty)).enum,
      ∀ e ∈ pr.2.1, MEv.job pr.1 e ∈
        (mainRun env403 cfgASF true [csvG1] (fun _ => stEmpty)).1) ∧
    (MEv.summary ∈ (mainRun env403 cfgASF true [csvG1] (fun _ => stEmpty)).1 ↔
      firstErr (jobResults env403 cfgASF.dataset (mainDownloadList cfgASF [csvG1])
        (fun _ => stEmpty)) = none) :=
  C8_one_job_each_summary_iff_no_fault env403 cfgASF [csvG1] (fun _ => stEmpty)
    rfl (Or.inr (by decide))

/-- C8 counterexample: two granules with site `ASF` against a
403-answering host: job 0 faults (`FileNotFoundError` at extraction), job
1 still runs (its `asfCall` event is in the trace), but the run re-raises
the fault and the elapsed-time summary is never printed — refuting "the
elapsed-time summary is reported ... regardless of how many granules
failed". -/
theorem C8_counterexample_summary_skipped_on_fault :
    (mainRun env403 cfgASF true [csvG1, csvG2] (fun _ => stEmpty)).2 =
      .error PyFault.fileNotFound ∧
    MEv.summary ∉ (mainRun env403 cfgASF true [csvG1, csvG2] (fun _ => stEmpty)).1 ∧
    MEv.job 1 (Ev.asfCall csvG2.url (pyS "u") (pyS "p")) ∈
      (mainRun env403 cfgASF true [csvG1, csvG2] (fun _ => stEmpty)).1 :=
  ⟨rfl, by decide, by decide⟩

/-- C9 (amended, proved): the GUID path is generated exactly once per run,
as the very first action and before any worker event; the scratch
directory itself is created only inside worker jobs (by `extractall`), and
no event of the pipeline deletes it. -/
theorem C9_guid_generated_once_created_only_in_workers (env : Env) (cfg : MainCfg)
    (dflag : Bool) (rows : List CsvRow) (sts : Nat → WorkerSt) :
    (mainRun env cfg dflag rows sts).1.head? = some (MEv.guidPath (guidDirOf env cfg)) ∧
    ((mainRun env cfg dflag rows sts).1.filter isGuidPathEv).length = 1 ∧
    (∀ e ∈ (mainRun env cfg dflag rows sts).1, createsGuidDir e = true →
      ∃ i ev, e = MEv.job i ev) ∧
    (∀ e ∈ (mainRun env cfg dflag rows sts).1, deletesGuidDir e = false) := by
  obtain ⟨X, hX, hXcl⟩ := mainRun_evs_shape env cfg dflag rows sts
  rw [hX]
  refine ⟨rfl, ?_, ?_, ?_⟩
  · rw [List.filter_append]
    have hXf : X.filter isGuidPathEv = [] := by
      rw [List.filter_eq_nil]
      intro e he
      rcases hXcl e he with ⟨i, ev, hev⟩ | hev | hev | hev <;> subst hev <;>
        simp [isGuidPathEv]
    rw [hXf]
    rfl
  · intro e he hc
    rcases List.mem_append.1 he with h3 | h3
    · exfalso
      simp only [List.mem_cons, List.not_mem_nil, or_false] at h3
      rcases h3 with h3 | h3 | h3 | h3 <;> subst h3 <;> simp [createsGuidDir] at hc
    · rcases hXcl e h3 with h4 | h4 | h4 | h4
      · exact h4
      · subst h4; simp [createsGuidDir] at hc
      · subst h4; simp [createsGuidDir] at hc
      · subst h4; simp [createsGuidDir] at hc
  · intro e _
    exact deletesGuidDir_false e

/-- C9 counterexample: a run with site `AWS`: a worker runs (its `tryAws`
event is in the trace) but the GUID directory is never created — zero
creation events in the whole run — refuting "the scratch directory is
created exactly once per run, before any worker starts". -/
theorem C9_counterexample_dir_never_created :
    MEv.job 0 (Ev.tryAws (awsUrl (mkRow csvG1 (pyS "AWS") []))) ∈
      (mainRun env403 cfgAWS true [csvG1] (fun _ => stEmpty)).1 ∧
    ((mainRun env403 cfgAWS true [csvG1] (fun _ => stEmpty)).1.filter createsGuidDir).length
      = 0 :=
  ⟨by decide, by decide⟩

/-- C7 witness: the acquisition date `2020-01-02T00` and granule `G1`
derive `<base>/2020/01/02/G1/G1.zip`. -/
theorem C7_aws_url_derivation_witness :
    awsUrl { granuleName := pyS "G1", pathNumber := pyS "1", frameNumber := pyS "2",
             acquisitionDate := pyS "2020" ++ pyS "-" ++ pyS "01" ++ pyS "-" ++ pyS "02" ++
               pyS "T00",
             url := pyS "u", downloadSite := pyS "ASF", asfWgetStr := pyS "w" } =
    aws_baseurl ++ pyS "2020" ++ pyS "/" ++ pyS "01" ++ pyS "/" ++ pyS "02" ++ pyS "/" ++
      pyS "G1" ++ pyS "/" ++ pyS "G1" ++ pyS ".zip" :=
  C7_aws_url_derivation (pyS "2020") (pyS "01") (pyS "02") (pyS "T00") (pyS "G1") (pyS "1")
    (pyS "2") (pyS "u") (pyS "ASF") (pyS "w") rfl rfl rfl

/-- C9 witness: in a concrete run, the GUID path generation is the first
event of the trace and occurs exactly once. -/
theorem C9_guid_generated_once_created_only_in_workers_witness :
    (mainRun env403 cfgAWS true [csvG1] (fun _ => stEmpty)).1.head? =
      some (MEv.guidPath (guidDirOf env403 cfgAWS)) ∧
    ((mainRun env403 cfgAWS true [csvG1] (fun _ => stEmpty)).1.filter isGuidPathEv).length = 1 :=
  ⟨(C9_guid_generated_once_created_only_in_workers env403 cfgAWS true [csvG1]
      (fun _ => stEmpty)).1,
   (C9_guid_generated_once_created_only_in_workers env403 cfgAWS true [csvG1]
      (fun _ => stEmpty)).2.1⟩

end SentinelQueryDownload


